import Mathlib

/-!
Verification of the completion streaming engine of the llm-playground
repository against its natural-language specification.

The definitions below are a shallow embedding of the Rust source.  The
authoritative module is tauri/src/fetch_tokens.rs; the older rewrites
src-tauri/src/fetch_tokens.rs and src/fetch_tokens.rs are embedded where a
claim cites them.  serde_json values are modelled by the inductive type Json;
the external function serde_json::from_str is modelled as an explicit
parameter of type String to Except Unit Json, so every theorem quantifies
over the behaviour of the JSON parser.  Rust f64 configuration values are
modelled as decimal JSON numbers (no claim performs float arithmetic).
-/

/-- A decimal JSON number: mantissa times ten to the minus exponent.
Models the numeric leaves produced by serde_json serialization of the
f64 and u32 configuration fields. -/
structure JsonNumber where
  units : Int
  tenthsExponent : Nat
deriving DecidableEq

/-- Model of serde_json::Value. -/
inductive Json where
  | null
  | bool (flag : Bool)
  | num (value : JsonNumber)
  | str (text : String)
  | arr (items : List Json)
  | obj (entries : List (String × Json))

/-- Field access, value["key"]: serde_json returns Value::Null when self is
not an object or the key is absent. -/
def Json.getField : Json → String → Json
  | .obj fields, key =>
    match fields.lookup key with
    | some v => v
    | none => .null
  | _, _ => .null

/-- Index access, value[i]: serde_json returns Value::Null when self is not
an array or the index is out of range. -/
def Json.getIdx : Json → Nat → Json
  | .arr elems, i =>
    match elems.get? i with
    | some v => v
    | none => .null
  | _, _ => .null

/-- Value::is_null. -/
def Json.isNull : Json → Bool
  | .null => true
  | _ => false

/-- Value::as_str. -/
def Json.asStr : Json → Option String
  | .str s => some s
  | _ => none

/-- Whether an object carries the given key (used to state field omission). -/
def Json.hasField : Json → String → Bool
  | .obj fields, key => (fields.lookup key).isSome
  | _, _ => false

/-- Model of common::Provider as used by tauri/src/fetch_tokens.rs. -/
inductive Provider where
  | OpenAI (base_url : String)
  | Anthropic
  | Google

/-- Model of common::APIKey. -/
structure APIKey where
  name : String
  key : String
  provider : Provider

/-- Model of common::Config.  The f64 temperature is carried as a decimal
JSON number. -/
structure Config where
  system_prompt : String
  temperature : JsonNumber
  max_tokens : Nat
  model : String
  api_key : Option Nat
  api_keys : List APIKey

/-- Model of common::Exchange. -/
structure Exchange where
  user_message : String
  assistant_message : String

/-- Model of eventsource_stream::Event; only the event kind and the data
payload are read by the decoders. -/
structure SseEvent where
  event : String
  data : String

/-- The Unicode White_Space property, the set trimmed by Rust str::trim. -/
def rustIsWhitespace (c : Char) : Bool :=
  (0x09 ≤ c.val && c.val ≤ 0x0D) || c.val == 0x20 || c.val == 0x85 ||
  c.val == 0xA0 || c.val == 0x1680 ||
  (0x2000 ≤ c.val && c.val ≤ 0x200A) || c.val == 0x2028 ||
  c.val == 0x2029 || c.val == 0x202F || c.val == 0x205F || c.val == 0x3000

/-- Rust str::trim on a character list. -/
def rustTrimChars (cs : List Char) : List Char :=
  ((cs.dropWhile rustIsWhitespace).reverse.dropWhile rustIsWhitespace).reverse

/-- Rust str::trim on a string. -/
def rustTrimString (s : String) : String :=
  String.mk (rustTrimChars s.data)

/-- Rust str::starts_with with a string pattern, on the character level. -/
def rustStartsWith (s pat : String) : Bool :=
  pat.data.isPrefixOf s.data

/-- A message object with role and content, as assembled by
build_openai_request_body and build_anthropic_request_body. -/
def chatMessage (role content : String) : Json :=
  .obj [("role", .str role), ("content", .str content)]

/-- tauri/src/fetch_tokens.rs, build_openai_request_body (lines 9 to 43):
push a system message when the system prompt is nonempty, then a user and an
assistant message per exchange, then the prompt as a user message; the stream
flag is false exactly when the model name starts with o1. -/
def build_openai_request_body (config : Config) (exchanges : List Exchange)
    (prompt : String) : Json :=
  let messages :=
    (if config.system_prompt = "" then []
     else [chatMessage "system" config.system_prompt]) ++
    exchanges.flatMap (fun exchange =>
      [chatMessage "user" exchange.user_message,
       chatMessage "assistant" exchange.assistant_message]) ++
    [chatMessage "user" prompt]
  .obj [("model", .str config.model),
        ("max_completion_tokens", .num ⟨(config.max_tokens : Int), 0⟩),
        ("temperature", .num config.temperature),
        ("stream", .bool (!(rustStartsWith config.model "o1"))),
        ("messages", .arr messages)]

/-- tauri/src/fetch_tokens.rs, build_anthropic_request_body (lines 78 to
108): user and assistant messages per exchange, then the prompt; the system
prompt is always sent as the top level system field. -/
def build_anthropic_request_body (config : Config) (exchanges : List Exchange)
    (prompt : String) : Json :=
  let messages :=
    exchanges.flatMap (fun exchange =>
      [chatMessage "user" exchange.user_message,
       chatMessage "assistant" exchange.assistant_message]) ++
    [chatMessage "user" prompt]
  .obj [("model", .str config.model),
        ("max_tokens", .num ⟨(config.max_tokens : Int), 0⟩),
        ("temperature", .num config.temperature),
        ("stream", .bool true),
        ("system", .str config.system_prompt),
        ("messages", .arr messages)]

/-- A Google content object with role and a single text part. -/
def googleMessage (role text : String) : Json :=
  .obj [("role", .str role), ("parts", .arr [.obj [("text", .str text)]])]

/-- One Google safety setting object. -/
def googleSafetySetting (category : String) : Json :=
  .obj [("category", .str category), ("threshold", .str "BLOCK_NONE")]

/-- tauri/src/fetch_tokens.rs, build_google_request_body (lines 130 to 180):
user and model contents per exchange, then the prompt; the system prompt is
always sent, possibly empty, under system_instruction.parts[0].text. -/
def build_google_request_body (config : Config) (exchanges : List Exchange)
    (prompt : String) : Json :=
  let messages :=
    exchanges.flatMap (fun exchange =>
      [googleMessage "user" exchange.user_message,
       googleMessage "model" exchange.assistant_message]) ++
    [googleMessage "user" prompt]
  .obj [("generation_config",
          .obj [("temperature", .num config.temperature),
                ("max_output_tokens", .num ⟨(config.max_tokens : Int), 0⟩)]),
        ("system_instruction",
          .obj [("parts", .arr [.obj [("text", .str config.system_prompt)]])]),
        ("safety_settings",
          .arr [googleSafetySetting "HARM_CATEGORY_SEXUALLY_EXPLICIT",
                googleSafetySetting "HARM_CATEGORY_HATE_SPEECH",
                googleSafetySetting "HARM_CATEGORY_HARASSMENT",
                googleSafetySetting "HARM_CATEGORY_DANGEROUS_CONTENT"]),
        ("contents", .arr messages)]

/-- tauri/src/fetch_tokens.rs, parse_openai_response (lines 55 to 76).
The from_str parameter models serde_json::from_str. -/
def parse_openai_response (from_str : String → Except Unit Json)
    (message : SseEvent) : Except String (Option String) :=
  if message.event = "error" then .error message.data
  else if rustTrimString message.data = "[DONE]" then .ok none
  else
    match from_str message.data with
    | .error _ => .error "Error parsing response."
    | .ok response =>
      if !(((response.getField "choices").getIdx 0).getField
            "finish_reason").isNull then .ok none
      else
        match ((((response.getField "choices").getIdx 0).getField
                "delta").getField "content").asStr with
        | some tokens => .ok (some tokens)
        | none => .error "Error parsing response."

/-- tauri/src/fetch_tokens.rs, parse_openai_nonstreaming_response (lines 45
to 52). -/
def parse_openai_nonstreaming_response (from_str : String → Except Unit Json)
    (response_text : String) : Except String String :=
  match from_str response_text with
  | .error _ => .error "Error parsing response."
  | .ok response =>
    match ((((response.getField "choices").getIdx 0).getField
            "message").getField "content").asStr with
    | some s => .ok s
    | none => .error "Error parsing response."

/-- src/fetch_tokens.rs, interpret_message, OpenAI arm (lines 67 to 86):
the older rewrite of the OpenAI decoder.  Data equal to [DONE] after
trimming yields end; otherwise the data is parsed with Result::ok into an
Option, the closure returns the empty string when choices[0].finish_reason
is non null and otherwise choices[0].delta.content as a string, the result
is wrapped in Some, and a missing value (parse failure or absent paths)
becomes the decode error through Option::ok_or.  A non null finish_reason
therefore yields the keep-alive token Ok(Some("")), not end, and this
version has no error event check. -/
def interpret_message_openai (from_str : String → Except Unit Json)
    (message : SseEvent) : Except String (Option String) :=
  if rustTrimString message.data = "[DONE]" then .ok none
  else
    match
      (match from_str message.data with
       | .error _ => none
       | .ok data =>
         if !(((data.getField "choices").getIdx 0).getField
               "finish_reason").isNull then some ""
         else ((((data.getField "choices").getIdx 0).getField
               "delta").getField "content").asStr)
    with
    | some token => .ok (some token)
    | none => .error "Error parsing response."

/-- tauri/src/fetch_tokens.rs, parse_anthropic_response (lines 111 to 128).
Note that the data payload is parsed as JSON before the event kind is
examined. -/
def parse_anthropic_response (from_str : String → Except Unit Json)
    (message : SseEvent) : Except String (Option String) :=
  if message.event = "error" then .error message.data
  else
    match from_str message.data with
    | .error _ => .error "Error parsing response."
    | .ok response =>
      if message.event ≠ "content_block_delta" then .ok (some "")
      else
        match ((response.getField "delta").getField "text").asStr with
        | some tokens => .ok (some tokens)
        | none => .error "Error parsing response."

/-- UTF-8 decoding of a byte sequence, the validation performed by Rust
String::from_utf8: rejects stray continuation bytes, overlong encodings,
surrogate code points and code points above 0x10FFFF. -/
def utf8Decode : List Nat → Option (List Char)
  | [] => some []
  | b :: bs =>
    if b < 0x80 then (utf8Decode bs).map (fun cs => Char.ofNat b :: cs)
    else if b < 0xC2 then none
    else if b < 0xE0 then
      match bs with
      | b1 :: bs1 =>
        if 0x80 ≤ b1 ∧ b1 < 0xC0 then
          (utf8Decode bs1).map (fun cs =>
            Char.ofNat ((b - 0xC0) * 0x40 + (b1 - 0x80)) :: cs)
        else none
      | [] => none
    else if b < 0xF0 then
      match bs with
      | b1 :: b2 :: bs2 =>
        if (if b = 0xE0 then 0xA0 else 0x80) ≤ b1 ∧
            b1 < (if b = 0xED then 0xA0 else 0xC0) ∧
            0x80 ≤ b2 ∧ b2 < 0xC0 then
          (utf8Decode bs2).map (fun cs =>
            Char.ofNat ((b - 0xE0) * 0x1000 + (b1 - 0x80) * 0x40 +
              (b2 - 0x80)) :: cs)
        else none
      | _ => none
    else if b < 0xF5 then
      match bs with
      | b1 :: b2 :: b3 :: bs3 =>
        if (if b = 0xF0 then 0x90 else 0x80) ≤ b1 ∧
            b1 < (if b = 0xF4 then 0x90 else 0xC0) ∧
            0x80 ≤ b2 ∧ b2 < 0xC0 ∧ 0x80 ≤ b3 ∧ b3 < 0xC0 then
          (utf8Decode bs3).map (fun cs =>
            Char.ofNat ((b - 0xF0) * 0x40000 + (b1 - 0x80) * 0x1000 +
              (b2 - 0x80) * 0x40 + (b3 - 0x80)) :: cs)
        else none
      | _ => none
    else none

/-- The UTF-8 byte length of one character. -/
def utf8CharLen (c : Char) : Nat :=
  if c.val < 0x80 then 1
  else if c.val < 0x800 then 2
  else if c.val < 0x10000 then 3
  else 4

/-- The byte slice taken by the Rust expression of the form message[1..]:
none models the panic that Rust raises when byte index 1 is out of bounds or
not a character boundary. -/
def rustSliceFromByteOne (cs : List Char) : Option (List Char) :=
  match cs with
  | [] => none
  | c :: rest => if utf8CharLen c = 1 then some rest else none

/-- The byte slice taken by the Rust expression of the form
message[..message.len() - 1]: none models the panic that Rust raises when
the string is empty or the final byte is not a whole character. -/
def rustSliceDropLastByte (cs : List Char) : Option (List Char) :=
  match cs.getLast? with
  | none => none
  | some c => if utf8CharLen c = 1 then some cs.dropLast else none

/-- The JSON interpretation step of parse_google_response (lines 196 to 209):
a non null top level error field carries the provider message, otherwise the
text lives at candidates[0].content.parts[0].text. -/
def google_json_outcome (from_str : String → Except Unit Json)
    (chars : List Char) : Except String (Option String) :=
  match from_str (String.mk chars) with
  | .error _ => .error "Error parsing response."
  | .ok response =>
    if !(response.getField "error").isNull then
      .error ((((response.getField "error").getField "message").asStr).getD
        "Error with request.")
    else
      match ((((((response.getField "candidates").getIdx 0).getField
              "content").getField "parts").getIdx 0).getField "text").asStr with
      | some tokens => .ok (some tokens)
      | none => .error "Error parsing response."

/-- tauri/src/fetch_tokens.rs, parse_google_response (lines 183 to 210),
embedded at byte level.  The outer Option is the panic marker of the two
byte slicing operations: none would mean the Rust code panics.  Invalid
UTF-8 input surfaces as the from_utf8 error, which the question mark
operator converts into the error result. -/
def parse_google_response (from_str : String → Except Unit Json)
    (bytes : List Nat) : Option (Except String (Option String)) :=
  match utf8Decode bytes with
  | none => some (.error "invalid utf-8")
  | some decoded =>
    let message := rustTrimChars decoded
    let afterLead : Option (List Char) :=
      if message.head? = some '[' ∨ message.head? = some ',' then
        rustSliceFromByteOne message
      else some message
    match afterLead with
    | none => none
    | some message1 =>
      if message1.getLast? = some ']' then
        match rustSliceDropLastByte message1 with
        | none => none
        | some message2 =>
          if message2 = [] then some (.ok none)
          else some (google_json_outcome from_str message2)
      else some (google_json_outcome from_str message1)

/-- One frame delivered on the token channel by the supervisor:
window.emit of Ok(Some(text)), Ok(None), or Err. -/
inductive Frame where
  | text (s : String)
  | done
  | err (e : String)
deriving DecidableEq

/-- tauri/src/fetch_tokens.rs, the constant bottleneck of rate_limit
(line 217), in milliseconds. -/
def bottleneck : Nat := 25

/-- tauri/src/fetch_tokens.rs, rate_limit (lines 212 to 231), with time
made explicit: given the pending stream and the milliseconds elapsed since
the last emission, return the next stream item together with the duration of
the artificial sleep that is awaited alongside it.  When more than
bottleneck milliseconds have elapsed the item is returned without any sleep;
otherwise the sleep lasts bottleneck minus elapsed milliseconds.  In both
branches the value produced is exactly the next item of the stream. -/
def rate_limit {α : Type} (tokens_stream : List α) (elapsed : Nat) :
    Option α × Nat :=
  if elapsed > bottleneck then (tokens_stream.head?, 0)
  else (tokens_stream.head?, bottleneck - elapsed)

/-- One iteration of the non-cancel branch of the collect_tokens loop
(lines 248 to 273), with the timestamp state made explicit.  The input is
the item returned by rate_limit (none when the stream is exhausted), the
timestamp of the last emission and the current time.  The output is the
frame emitted during the iteration (none when the item is skipped), the
updated last-emission timestamp, and whether the loop breaks.  Emission to
the window is modelled as always succeeding. -/
def collect_tokens_step (item : Option (Except String (Option String)))
    (last now : Nat) : Option Frame × Nat × Bool :=
  match item with
  | none => (some .done, last, true)
  | some tokens =>
    match tokens with
    | .ok (some s) =>
      if s = "" then (none, last, false) else (some (.text s), now, false)
    | .ok none => (some .done, now, true)
    | .error e => (some (.err e), now, false)

/-- tauri/src/fetch_tokens.rs, collect_tokens (lines 233 to 276), as the
sequence of frames emitted on the token channel.  The stream is the list of
decoded items; cancel is none when the cancel branch of the select never
wins, and some k when it wins at loop iteration k.  The cancel branch and
stream exhaustion emit Ok(None); an Ok(Some("")) item is skipped; every
other item is emitted, and only an emitted Ok(None) breaks the loop: after
an emitted error frame the loop continues with the rest of the stream. -/
def collect_tokens (stream : List (Except String (Option String)))
    (cancel : Option Nat) : List Frame :=
  if cancel = some 0 then [Frame.done]
  else
    match stream with
    | [] => [Frame.done]
    | tokens :: rest =>
      let cancel1 := cancel.map (fun n => n - 1)
      match tokens with
      | .ok (some s) =>
        if s = "" then collect_tokens rest cancel1
        else Frame.text s :: collect_tokens rest cancel1
      | .ok none => [Frame.done]
      | .error e => Frame.err e :: collect_tokens rest cancel1

/-- The successive actions of tauri/src/fetch_tokens.rs,
build_token_stream (lines 319 to 371), in source order. -/
inductive Step where
  | resolveCredential
  | buildRequest
  | registerCancelListener
  | sendRequest
  | checkStatus
  | buildTokensStream
  | spawnCollector
deriving DecidableEq, BEq

/-- The order in which build_token_stream performs its steps: credential
resolution (lines 326 to 327), request construction (line 329), cancel
listener registration (lines 331 to 335), dispatch of the request racing the
cancel notification (lines 337 to 340), status check (line 341), stream
construction (lines 346 to 363), collector spawn (line 365). -/
def build_token_stream_steps : List Step :=
  [.resolveCredential, .buildRequest, .registerCancelListener,
   .sendRequest, .checkStatus, .buildTokensStream, .spawnCollector]

/-- The moment at which the single cancel event fires, relative to the
steps of build_token_stream. -/
inductive CancelPoint where
  | duringConstruction
  | duringSend
  | duringStreaming (k : Nat)
  | never

/-- The caller-visible outcome of one run of build_token_stream together
with the spawned collect_tokens task: the boolean the command returns (true
means the cancel won before the response arrived) and the frames delivered
on the token channel.  A cancel fired during credential resolution or
request construction precedes the listener registration of line 332, so the
notification is never sent and the run proceeds as if no cancel had fired.
A cancel fired between registration and the arrival of the response wins
the select of lines 337 to 340: the command returns true and no frame is
emitted.  A cancel fired once streaming started wins the select inside
collect_tokens at the given iteration. -/
def build_token_stream_run (stream : List (Except String (Option String))) :
    CancelPoint → Bool × List Frame
  | .duringConstruction => (false, collect_tokens stream none)
  | .duringSend => (true, [])
  | .duringStreaming k => (false, collect_tokens stream (some k))
  | .never => (false, collect_tokens stream none)

/-- tauri/src/fetch_tokens.rs, lines 326 to 327: the credential lookup of
build_token_stream, using Vec::get, so an out of range index yields the
Invalid selection error. -/
def resolve_api_key (config : Config) : Except String APIKey :=
  match config.api_key with
  | none => .error "No API key selected."
  | some api_key_index =>
    match config.api_keys.get? api_key_index with
    | none => .error "Invalid selection."
    | some api_key => .ok api_key

/-- src-tauri/src/fetch_tokens.rs, lines 125 to 126: the credential lookup
of the older build_token_stream, which indexes the Vec directly.  The outer
Option is the panic marker: none models the index out of bounds panic of
the Rust indexing operator. -/
def resolve_api_key_src_tauri (config : Config) :
    Option (Except String APIKey) :=
  match config.api_key with
  | none => some (.error "No API Key selected.")
  | some api_key_index =>
    (config.api_keys.get? api_key_index).map (fun api_key => .ok api_key)

/-- tauri/src/fetch_tokens.rs, lines 348 to 354: the synthesized two frame
stream of the o1 non-streaming fallback, built from the outcome of
response.text() (an error models a transport failure while reading the
body). -/
def o1_token_stream (from_str : String → Except Unit Json)
    (response_text : Except String String) :
    List (Except String (Option String)) :=
  [(response_text.bind (parse_openai_nonstreaming_response from_str)).map
     (fun s => some s),
   .ok none]

/-- Follows the wording of the amended claim C3: an event of kind error
yields an error carrying the data; data equal to [DONE] after trimming
yields end; data that does not parse yields a decode error; a non null
choices[0].finish_reason yields end; otherwise a string at
choices[0].delta.content is the text and anything else is a decode error. -/
def openai_decode_spec (from_str : String → Except Unit Json)
    (message : SseEvent) : Except String (Option String) :=
  if message.event = "error" then .error message.data
  else if rustTrimString message.data = "[DONE]" then .ok none
  else
    match from_str message.data with
    | .error _ => .error "Error parsing response."
    | .ok response =>
      match ((response.getField "choices").getIdx 0).getField "finish_reason",
          (((response.getField "choices").getIdx 0).getField "delta").getField
            "content" with
      | .null, .str tokens => .ok (some tokens)
      | .null, _ => .error "Error parsing response."
      | _, _ => .ok none

/-- Follows the wording of the amended claim C3 for the older decoder of
src/fetch_tokens.rs: data equal to [DONE] after trimming yields end; data
that does not parse yields a decode error; a non null
choices[0].finish_reason yields the empty keep-alive token Ok(Some(""));
otherwise a string at choices[0].delta.content is the text and anything
else is a decode error. -/
def interpret_message_spec (from_str : String → Except Unit Json)
    (message : SseEvent) : Except String (Option String) :=
  if rustTrimString message.data = "[DONE]" then .ok none
  else
    match from_str message.data with
    | .error _ => .error "Error parsing response."
    | .ok data =>
      match ((data.getField "choices").getIdx 0).getField "finish_reason",
          (((data.getField "choices").getIdx 0).getField "delta").getField
            "content" with
      | .null, .str token => .ok (some token)
      | .null, _ => .error "Error parsing response."
      | _, _ => .ok (some "")

/-- Follows the wording of the amended claim C4: an event of kind error
yields an error carrying the data; data that does not parse as JSON yields
a decode error; a content_block_delta event yields the string at delta.text
or a decode error when that path is absent; every other event kind whose
data parses yields the empty keep-alive token. -/
def anthropic_decode_spec (from_str : String → Except Unit Json)
    (message : SseEvent) : Except String (Option String) :=
  if message.event = "error" then .error message.data
  else
    match from_str message.data with
    | .error _ => .error "Error parsing response."
    | .ok response =>
      if message.event = "content_block_delta" then
        match (response.getField "delta").getField "text" with
        | .str tokens => .ok (some tokens)
        | _ => .error "Error parsing response."
      else .ok (some "")

/-- The provider message carried by a top level error value, with the fixed
fallback message of the source. -/
def googleErrorMessage (errValue : Json) : String :=
  match errValue.getField "message" with
  | .str errorMessage => errorMessage
  | _ => "Error with request."

/-- The JSON interpretation step of claim C5, following the claim wording:
a non null top level error field yields an error carrying error.message or
the fixed fallback message, otherwise the result is the string at
candidates[0].content.parts[0].text and a decode error when that path is
absent or the remainder is not valid JSON. -/
def google_spec_json (from_str : String → Except Unit Json)
    (chars : List Char) : Except String (Option String) :=
  match from_str (String.mk chars) with
  | .error _ => .error "Error parsing response."
  | .ok response =>
    match response.getField "error",
        (((((response.getField "candidates").getIdx 0).getField
            "content").getField "parts").getIdx 0).getField "text" with
    | .null, .str tokens => .ok (some tokens)
    | .null, _ => .error "Error parsing response."
    | errValue, _ => .error (googleErrorMessage errValue)

/-- Follows the wording of claim C5: after trimming, one leading bracket or
comma is stripped and one trailing bracket is stripped; an empty remainder
after stripping a trailing bracket is end; otherwise the remainder is
interpreted as JSON. -/
def google_decode_spec (from_str : String → Except Unit Json)
    (chars : List Char) : Except String (Option String) :=
  let trimmed := rustTrimChars chars
  let strippedLead :=
    if trimmed.head? = some '[' ∨ trimmed.head? = some ',' then trimmed.tail
    else trimmed
  if strippedLead.getLast? = some ']' then
    if strippedLead.dropLast = [] then .ok none
    else google_spec_json from_str strippedLead.dropLast
  else google_spec_json from_str strippedLead

/-- A JSON parser oracle that rejects every input, used to instantiate
counterexamples and witnesses on inputs that are not valid JSON. -/
def jsonParseStub : String → Except Unit Json := fun _ => .error ()

/-- A streaming chunk whose choices[0].finish_reason is the non null
string stop. -/
def finishStopJson : Json :=
  .obj [("choices", .arr [.obj [("finish_reason", .str "stop")]])]

/-- A JSON parser oracle that accepts every input as the finish chunk
above. -/
def finishStopStub : String → Except Unit Json := fun _ => .ok finishStopJson

/-- A stored OpenAI credential used in concrete runs. -/
def sampleOpenAIKey : APIKey :=
  ⟨"work", "sk-111", .OpenAI "https://api.openai.com/v1"⟩

/-- A stored Anthropic credential used in concrete runs. -/
def sampleAnthropicKey : APIKey := ⟨"personal", "sk-222", .Anthropic⟩

/-- The configuration of the out of range credential scenario: two stored
keys and a selected index of five. -/
def badIndexConfig : Config :=
  ⟨"", ⟨8, 1⟩, 1024, "gpt-4o", some 5,
   [sampleOpenAIKey, sampleAnthropicKey]⟩

/-- A configuration whose model selects the o1 non-streaming fallback. -/
def o1Config : Config :=
  ⟨"no yapping", ⟨8, 1⟩, 1024, "o1-preview", some 0, [sampleOpenAIKey]⟩

/-- A configuration with an empty system prompt. -/
def emptySystemConfig : Config :=
  ⟨"", ⟨8, 1⟩, 1024, "claude-3-5-sonnet", some 1,
   [sampleOpenAIKey, sampleAnthropicKey]⟩

/-- A non-streaming OpenAI response body holding a full completion text. -/
def o1ResponseJson : Json :=
  .obj [("choices",
         .arr [.obj [("message", .obj [("content", .str "hello")])]])]

/-- A JSON parser oracle that accepts every input as the non-streaming
response body above. -/
def o1ParseStub : String → Except Unit Json := fun _ => .ok o1ResponseJson

/-- Byte slicing after a leading bracket or comma is in bounds and drops
exactly the first character. -/
theorem rustSliceFromByteOne_eq_tail (cs : List Char)
    (h : cs.head? = some '[' ∨ cs.head? = some ',') :
    rustSliceFromByteOne cs = some cs.tail := by
  cases cs with
  | nil => simp at h
  | cons c rest =>
    rcases h with h | h <;> simp at h <;> subst h <;> rfl

/-- Byte slicing before a trailing bracket is in bounds and drops exactly
the last character. -/
theorem rustSliceDropLastByte_eq_dropLast (cs : List Char)
    (h : cs.getLast? = some ']') :
    rustSliceDropLastByte cs = some cs.dropLast := by
  unfold rustSliceDropLastByte
  rw [h]
  rfl

/-- C1: the supervisor loop does not stop after emitting an error frame.
On the two item stream consisting of a decode error and a further text
token, collect_tokens emits the error frame, then the text frame, then the
terminal end frame: a frame follows the Err frame and the sequence holds
two terminal frames, contradicting the claim. -/
theorem collect_tokens_continues_after_error_frame :
    collect_tokens [.error "boom", .ok (some "a")] none =
      [Frame.err "boom", Frame.text "a", Frame.done] := by
  rfl

/-- C2: on the configuration selecting index five among two stored keys,
the current build_token_stream (tauri) returns the invalid selection error,
while the credential lookup of the older src-tauri build_token_stream hits
the out of bounds panic of the Vec indexing operator, modelled by none. -/
theorem api_key_out_of_range_lookup :
    resolve_api_key badIndexConfig = .error "Invalid selection." ∧
    resolve_api_key_src_tauri badIndexConfig = none := by
  exact ⟨rfl, rfl⟩

/-- C8: the rate limiter always yields the next stream item; when less than
the bottleneck interval has elapsed since the last emission the artificial
sleep lasts exactly the remainder; when at least the bottleneck interval has
elapsed no artificial sleep is added; and an empty keep-alive token is
skipped without a frame and without touching the last-emission timestamp. -/
theorem rate_limit_and_keepalive_timing :
    (∀ (stream : List (Except String (Option String))) (elapsed : Nat),
        (rate_limit stream elapsed).1 = stream.head?) ∧
    (∀ (stream : List (Except String (Option String))) (elapsed : Nat),
        elapsed < bottleneck →
        (rate_limit stream elapsed).2 = bottleneck - elapsed) ∧
    (∀ (stream : List (Except String (Option String))) (elapsed : Nat),
        bottleneck ≤ elapsed → (rate_limit stream elapsed).2 = 0) ∧
    (∀ (last now : Nat),
        collect_tokens_step (some (.ok (some ""))) last now =
          (none, last, false)) := by
  refine ⟨?_, ?_, ?_, ?_⟩
  · intro stream elapsed
    unfold rate_limit
    split <;> rfl
  · intro stream elapsed h
    unfold rate_limit
    rw [if_neg (by omega)]
  · intro stream elapsed h
    unfold rate_limit
    split
    · rfl
    · simp only
      omega
  · intro last now
    rfl

/-- Witness for C8 at concrete inputs: ten milliseconds elapsed yields a
fifteen millisecond sleep, thirty milliseconds elapsed yields none, and the
empty token is swallowed with the timestamp left at its old value. -/
theorem rate_limit_and_keepalive_timing_witness :
    (rate_limit ([.ok (some "x")] : List (Except String (Option String)))
      10).2 = 15 ∧
    (rate_limit ([] : List (Except String (Option String))) 30).2 = 0 ∧
    collect_tokens_step (some (.ok (some ""))) 3 7 = (none, 3, false) :=
  ⟨rate_limit_and_keepalive_timing.2.1 _ 10 (by decide),
   rate_limit_and_keepalive_timing.2.2.1 _ 30 (by decide),
   rate_limit_and_keepalive_timing.2.2.2 3 7⟩

/-- C9, counterexample: it is not the case that a cancel fired at every
point before the first text frame yields the one element End sequence; a
cancel that wins while the request is being sent makes the command return
true with no frame delivered at all. -/
theorem cancel_before_first_text_claim_false :
    ¬ ∀ (stream : List (Except String (Option String))),
        (build_token_stream_run stream .duringConstruction).2 =
          [Frame.done] ∧
        (build_token_stream_run stream .duringSend).2 = [Frame.done] ∧
        (build_token_stream_run stream (.duringStreaming 0)).2 =
          [Frame.done] := by
  intro h
  have h2 := (h [.ok (some "a")]).2.1
  exact absurd h2 (by decide)

/-- C9, amended: the cancel listener is registered after request
construction but before the request is dispatched; a cancel that wins
during the send returns true to the caller and delivers no frame; a cancel
that wins at the first iteration of the supervisor loop delivers exactly
the End frame; and a cancel fired during request construction is lost, the
run proceeding exactly as an uncanceled one. -/
theorem cancel_registration_and_delivery
    (stream : List (Except String (Option String))) :
    build_token_stream_steps.findIdx
        (fun s => s == Step.registerCancelListener) <
      build_token_stream_steps.findIdx (fun s => s == Step.sendRequest) ∧
    build_token_stream_steps.findIdx (fun s => s == Step.buildRequest) <
      build_token_stream_steps.findIdx
        (fun s => s == Step.registerCancelListener) ∧
    build_token_stream_run stream .duringSend = (true, []) ∧
    (build_token_stream_run stream (.duringStreaming 0)).2 = [Frame.done] ∧
    (build_token_stream_run stream .duringConstruction).2 =
      collect_tokens stream none := by
  refine ⟨by decide, by decide, rfl, ?_, rfl⟩
  show collect_tokens stream (some 0) = [Frame.done]
  cases stream <;> rfl

/-- C3, counterexample: each cited OpenAI decoder refutes one clause of
the claim.  In the tauri decoder, data equal to [DONE] does not always
yield end: an event of kind error yields an error carrying the data.  In
the older src decoder interpret_message, a non null
choices[0].finish_reason does not yield end: it yields the keep-alive
token Ok(Some("")). -/
theorem openai_end_claims_false :
    (¬ ∀ (from_str : String → Except Unit Json) (message : SseEvent),
        rustTrimString message.data = "[DONE]" →
        parse_openai_response from_str message = .ok none) ∧
    (¬ ∀ (from_str : String → Except Unit Json) (message : SseEvent)
        (response : Json),
        rustTrimString message.data ≠ "[DONE]" →
        from_str message.data = .ok response →
        (((response.getField "choices").getIdx 0).getField
            "finish_reason").isNull = false →
        interpret_message_openai from_str message = .ok none) := by
  constructor
  · intro h
    have h2 := h jsonParseStub ⟨"error", "[DONE]"⟩ rfl
    exact Except.noConfusion h2
  · intro h
    have h2 := h finishStopStub ⟨"message", "x"⟩ finishStopJson
      (by decide) rfl (by decide)
    have h3 : (Except.ok (some "") : Except String (Option String)) =
        .ok none := h2
    exact Option.noConfusion (Except.ok.inj h3)

/-- C3, amended, covering both cited decoders.  Tauri parse_openai_response:
unless the event kind is error (which yields an error carrying the data),
trimmed data [DONE] yields end, unparseable data yields a decode error, a
non null choices[0].finish_reason yields end, a string at
choices[0].delta.content yields that text, and anything else yields a
decode error.  Older src interpret_message: trimmed data [DONE] yields end,
unparseable data yields a decode error, a non null
choices[0].finish_reason yields the empty keep-alive token Ok(Some("")), a
string at choices[0].delta.content yields that text, and anything else
yields a decode error.  Both stated as equality with spec-worded
decoders. -/
theorem openai_decoders_match_spec
    (from_str : String → Except Unit Json) (message : SseEvent) :
    parse_openai_response from_str message =
      openai_decode_spec from_str message ∧
    interpret_message_openai from_str message =
      interpret_message_spec from_str message := by
  constructor
  · unfold parse_openai_response openai_decode_spec
    by_cases he : message.event = "error"
    · rw [if_pos he, if_pos he]
    · rw [if_neg he, if_neg he]
      by_cases hd : rustTrimString message.data = "[DONE]"
      · rw [if_pos hd, if_pos hd]
      · rw [if_neg hd, if_neg hd]
        cases from_str message.data with
        | error e => rfl
        | ok response =>
          cases hf : ((response.getField "choices").getIdx 0).getField
              "finish_reason" <;>
            cases hc : (((response.getField "choices").getIdx 0).getField
                "delta").getField "content" <;>
              simp [hf, hc, Json.isNull, Json.asStr]
  · unfold interpret_message_openai interpret_message_spec
    by_cases hd : rustTrimString message.data = "[DONE]"
    · rw [if_pos hd, if_pos hd]
    · rw [if_neg hd, if_neg hd]
      cases from_str message.data with
      | error e => rfl
      | ok data =>
        cases hf : ((data.getField "choices").getIdx 0).getField
            "finish_reason" <;>
          cases hc : (((data.getField "choices").getIdx 0).getField
              "delta").getField "content" <;>
            simp [hf, hc, Json.isNull, Json.asStr]

/-- C4, counterexample: an event of a kind other than error and
content_block_delta does not yield the keep-alive token regardless of its
data; when the data is not valid JSON the decoder yields a decode error,
because it parses the data before examining the event kind. -/
theorem anthropic_keepalive_requires_valid_json :
    ¬ ∀ (from_str : String → Except Unit Json) (message : SseEvent),
        message.event ≠ "error" → message.event ≠ "content_block_delta" →
        parse_anthropic_response from_str message = .ok (some "") := by
  intro h
  have h2 := h jsonParseStub ⟨"ping", "not json"⟩ (by decide) (by decide)
  exact Except.noConfusion h2

/-- C4, amended: an error event yields an error carrying the data; data
that does not parse as JSON yields a decode error whatever the event kind;
a content_block_delta event yields the string at delta.text or a decode
error when that path is absent; every other event kind with parseable data
yields the empty keep-alive token.  Stated as equality with the spec-worded
decoder. -/
theorem parse_anthropic_response_matches_spec
    (from_str : String → Except Unit Json) (message : SseEvent) :
    parse_anthropic_response from_str message =
      anthropic_decode_spec from_str message := by
  unfold parse_anthropic_response anthropic_decode_spec
  by_cases he : message.event = "error"
  · rw [if_pos he, if_pos he]
  · rw [if_neg he, if_neg he]
    cases from_str message.data with
    | error e => rfl
    | ok response =>
      by_cases hc : message.event = "content_block_delta"
      · cases ht : (response.getField "delta").getField "text" <;>
          simp [hc, ht, Json.asStr]
      · simp [hc]

/-- The Rust expression Option::unwrap_or over as_str of the message field
agrees with the spec-worded helper googleErrorMessage. -/
theorem asStr_getD_eq_googleErrorMessage (j : Json) :
    (((j.getField "message").asStr).getD "Error with request.") =
      googleErrorMessage j := by
  unfold googleErrorMessage
  cases h : j.getField "message" <;> simp [h, Json.asStr]

/-- The JSON interpretation step of the Google decoder agrees with the
spec-worded version. -/
theorem google_json_outcome_eq_spec (from_str : String → Except Unit Json)
    (chars : List Char) :
    google_json_outcome from_str chars = google_spec_json from_str chars := by
  unfold google_json_outcome google_spec_json
  cases from_str (String.mk chars) with
  | error e => rfl
  | ok response =>
    dsimp only
    rw [asStr_getD_eq_googleErrorMessage]
    cases herr : response.getField "error" <;>
      cases htxt : (((((response.getField "candidates").getIdx 0).getField
          "content").getField "parts").getIdx 0).getField "text" <;>
        simp [herr, htxt, Json.isNull, Json.asStr]

/-- On every chunk that decodes as UTF-8, the byte level Google decoder
avoids the panic marker and computes the spec-worded result. -/
theorem parse_google_eq_spec_aux (from_str : String → Except Unit Json)
    (bytes : List Nat) (chars : List Char)
    (h : utf8Decode bytes = some chars) :
    parse_google_response from_str bytes =
      some (google_decode_spec from_str chars) := by
  unfold parse_google_response google_decode_spec
  rw [h]
  dsimp only
  by_cases hg : (rustTrimChars chars).head? = some '[' ∨
      (rustTrimChars chars).head? = some ','
  · rw [if_pos hg, if_pos hg, rustSliceFromByteOne_eq_tail _ hg]
    dsimp only
    by_cases ht : (rustTrimChars chars).tail.getLast? = some ']'
    · rw [if_pos ht, if_pos ht, rustSliceDropLastByte_eq_dropLast _ ht]
      dsimp only
      by_cases he : (rustTrimChars chars).tail.dropLast = []
      · rw [if_pos he, if_pos he]
      · rw [if_neg he, if_neg he]
        exact congrArg some (google_json_outcome_eq_spec from_str _)
    · rw [if_neg ht, if_neg ht]
      exact congrArg some (google_json_outcome_eq_spec from_str _)
  · rw [if_neg hg, if_neg hg]
    dsimp only
    by_cases ht : (rustTrimChars chars).getLast? = some ']'
    · rw [if_pos ht, if_pos ht, rustSliceDropLastByte_eq_dropLast _ ht]
      dsimp only
      by_cases he : (rustTrimChars chars).dropLast = []
      · rw [if_pos he, if_pos he]
      · rw [if_neg he, if_neg he]
        exact congrArg some (google_json_outcome_eq_spec from_str _)
    · rw [if_neg ht, if_neg ht]
      exact congrArg some (google_json_outcome_eq_spec from_str _)

/-- C5: on every byte chunk that is valid UTF-8, the Google decoder behaves
exactly as claimed: after trimming, one leading bracket or comma and one
trailing bracket are stripped; an empty remainder after stripping a
trailing bracket yields end; a non null top level error field yields an
error carrying error.message or the fixed fallback; otherwise the result is
the string at candidates[0].content.parts[0].text, and a decode error when
that path is absent or the remainder is not valid JSON.  Stated as equality
with the spec-worded decoder, for every JSON parser oracle. -/
theorem parse_google_response_matches_spec
    (from_str : String → Except Unit Json) (bytes : List Nat)
    (chars : List Char) (h : utf8Decode bytes = some chars) :
    parse_google_response from_str bytes =
      some (google_decode_spec from_str chars) :=
  parse_google_eq_spec_aux from_str bytes chars h

/-- Witness for C5: the concrete chunk holding the two bracket characters
decodes as UTF-8, satisfies the theorem, and evaluates to the end frame. -/
theorem parse_google_response_matches_spec_witness :
    utf8Decode [91, 93] = some ['[', ']'] ∧
    parse_google_response jsonParseStub [91, 93] =
      some (google_decode_spec jsonParseStub ['[', ']']) ∧
    google_decode_spec jsonParseStub ['[', ']'] = .ok none :=
  ⟨rfl, parse_google_response_matches_spec jsonParseStub [91, 93]
    ['[', ']'] rfl, rfl⟩

/-- C10: the Google decoder is total: on every byte chunk and every JSON
parser oracle it returns a value rather than the panic marker, because the
two byte slicings are guarded by the starts_with and ends_with checks; and
a chunk that is not valid UTF-8 yields an error frame. -/
theorem google_decoder_total (from_str : String → Except Unit Json)
    (bytes : List Nat) :
    (parse_google_response from_str bytes).isSome = true ∧
    (utf8Decode bytes = none →
      parse_google_response from_str bytes =
        some (.error "invalid utf-8")) := by
  constructor
  · cases hu : utf8Decode bytes with
    | none =>
      unfold parse_google_response
      rw [hu]
      rfl
    | some decoded =>
      rw [parse_google_eq_spec_aux from_str bytes decoded hu]
      rfl
  · intro hn
    unfold parse_google_response
    rw [hn]

/-- Witness for C10 at the concrete chunk holding the single byte 255,
which is not valid UTF-8. -/
theorem google_decoder_total_witness :
    (parse_google_response jsonParseStub [255]).isSome = true ∧
    parse_google_response jsonParseStub [255] =
      some (.error "invalid utf-8") :=
  ⟨(google_decoder_total jsonParseStub [255]).1,
   (google_decoder_total jsonParseStub [255]).2 rfl⟩

/-- C6, counterexample: with an empty system prompt the Anthropic request
body does not omit the system content; the top level system field is still
present, carrying the empty string. -/
theorem anthropic_system_field_not_omitted :
    ¬ ∀ (config : Config) (exchanges : List Exchange) (prompt : String),
        config.system_prompt = "" →
        (build_anthropic_request_body config exchanges prompt).hasField
          "system" = false := by
  intro h
  have h2 := h emptySystemConfig [] "hi" rfl
  exact absurd h2 (by decide)

/-- C6, amended: every provider lists messages as the exchange pairs in
order followed by the prompt as a final user message; OpenAI prepends a
system message exactly when the system prompt is nonempty; Anthropic and
Google always send the system prompt, possibly empty, Anthropic as the top
level system field and Google under system_instruction.parts[0].text;
Google uses the role model for assistant messages. -/
theorem request_bodies_message_order (config : Config)
    (exchanges : List Exchange) (prompt : String) :
    (build_openai_request_body config exchanges prompt).getField "messages" =
      .arr ((if config.system_prompt = "" then []
             else [chatMessage "system" config.system_prompt]) ++
            exchanges.flatMap (fun exchange =>
              [chatMessage "user" exchange.user_message,
               chatMessage "assistant" exchange.assistant_message]) ++
            [chatMessage "user" prompt]) ∧
    (build_anthropic_request_body config exchanges prompt).getField
        "messages" =
      .arr (exchanges.flatMap (fun exchange =>
              [chatMessage "user" exchange.user_message,
               chatMessage "assistant" exchange.assistant_message]) ++
            [chatMessage "user" prompt]) ∧
    (build_anthropic_request_body config exchanges prompt).getField
        "system" = .str config.system_prompt ∧
    ((((build_google_request_body config exchanges prompt).getField
        "system_instruction").getField "parts").getIdx 0).getField "text" =
      .str config.system_prompt ∧
    (build_google_request_body config exchanges prompt).getField
        "contents" =
      .arr (exchanges.flatMap (fun exchange =>
              [googleMessage "user" exchange.user_message,
               googleMessage "model" exchange.assistant_message]) ++
            [googleMessage "user" prompt]) :=
  ⟨rfl, rfl, rfl, rfl, rfl⟩

/-- C7: when the model name starts with o1 the OpenAI request body carries
the stream flag false, and the synthesized token stream holds exactly two
frames: the full response text parsed from choices[0].message.content,
then the end frame. -/
theorem o1_nonstreaming_two_frames (config : Config)
    (exchanges : List Exchange) (prompt : String)
    (h : rustStartsWith config.model "o1" = true) :
    (build_openai_request_body config exchanges prompt).getField "stream" =
      .bool false ∧
    ∀ (from_str : String → Except Unit Json)
      (response_text full_text : String),
      parse_openai_nonstreaming_response from_str response_text =
        .ok full_text →
      o1_token_stream from_str (.ok response_text) =
        [.ok (some full_text), .ok none] ∧
      ∀ (outcome : Except String String),
        (o1_token_stream from_str outcome).length = 2 := by
  constructor
  · have hs : (build_openai_request_body config exchanges prompt).getField
        "stream" = .bool (!(rustStartsWith config.model "o1")) := rfl
    rw [hs, h]
    rfl
  · intro from_str response_text full_text hp
    constructor
    · simp [o1_token_stream, Except.bind, Except.map, hp]
    · intro outcome
      rfl

/-- Witness for C7 at the concrete o1 configuration: the model name
selects the fallback, the body carries the stream flag false, and the
synthesized stream is exactly the text frame followed by the end frame. -/
theorem o1_nonstreaming_two_frames_witness :
    rustStartsWith o1Config.model "o1" = true ∧
    (build_openai_request_body o1Config [] "p").getField "stream" =
      .bool false ∧
    o1_token_stream o1ParseStub (.ok "raw") =
      [.ok (some "hello"), .ok none] := by
  refine ⟨rfl, ?_, ?_⟩
  · exact (o1_nonstreaming_two_frames o1Config [] "p" rfl).1
  · exact ((o1_nonstreaming_two_frames o1Config [] "p" rfl).2 o1ParseStub
      "raw" "hello" rfl).1
